import Mathlib

/-!
Verification of the AETIM correlation, scoring and notification core.

The definitions below are a shallow embedding of `src/aetim/correlation_engine.py`
and `src/aetim/notification_handler.py`.  Python dynamic values that come out of
`json.loads` are modelled by the inductive type `PyVal`; the dynamic-typing
runtime errors (`TypeError`, `AttributeError`, `IndexError`, `KeyError`) are
modelled by the `Except PyError` monad.  Machine floats are modelled by `ℚ`,
with `round(x, 2)` rendered as round-half-to-even on hundredths.  SQL rows are
Lean structures; SQL `WHERE` clauses are list filters; timestamps are seconds
as `ℤ`.
-/

/-- A decoded JSON / Python value, as produced by `json.loads`. -/
inductive PyVal where
  | none : PyVal
  | bool : Bool → PyVal
  | num : ℚ → PyVal
  | str : String → PyVal
  | arr : List PyVal → PyVal
  | obj : List (String × PyVal) → PyVal

/-- The Python runtime errors that the embedded code can raise. -/
inductive PyError where
  | typeError : PyError
  | attributeError : PyError
  | indexError : PyError
  | keyError : PyError
deriving DecidableEq, Repr

/-- Models Python `needle in hay` for strings: substring containment. -/
def strIn (needle hay : String) : Bool :=
  hay.data.tails.any (fun t => needle.data.isPrefixOf t)

/-- Models Python `s.lower()` (character-wise, as the code only relies on
ASCII case folding). -/
def lowerStr (s : String) : String :=
  String.mk (s.data.map Char.toLower)

/-- Models Python `s.upper()`. -/
def upperStr (s : String) : String :=
  String.mk (s.data.map Char.toUpper)

/-- Models Python `s.strip()`: whitespace removed from both ends. -/
def stripStr (s : String) : String :=
  String.mk (((s.data.dropWhile Char.isWhitespace).reverse.dropWhile
    Char.isWhitespace).reverse)

/-- Splits a character list at a separator character, Python `split` style:
the empty string yields one empty field, adjacent separators yield empty
fields. -/
def splitChar (sep : Char) : List Char → List String
  | [] => [""]
  | c :: rest =>
      let r := splitChar sep rest
      if c = sep then "" :: r
      else
        match r with
        | [] => [String.mk [c]]
        | h :: t => String.mk (c :: h.data) :: t

/-- Python truthiness of a decoded value. -/
def pyTruthy : PyVal → Bool
  | .none => false
  | .bool b => b
  | .num q => q != 0
  | .str s => s != ""
  | .arr l => !l.isEmpty
  | .obj l => !l.isEmpty

/-- Models Python `key in v`: key lookup for dicts, element equality for
lists, substring test for strings, `TypeError` otherwise. -/
def pyContains (v : PyVal) (key : String) : Except PyError Bool :=
  match v with
  | .obj kvs => .ok (kvs.any (fun kv => kv.1 == key))
  | .arr l => .ok (l.any (fun e => match e with | .str s => s == key | _ => false))
  | .str s => .ok (strIn key s)
  | _ => .error .typeError

/-- Models Python `v[key]` with a string key: dict lookup (`KeyError` when the
key is missing), `TypeError` on every non-dict value. -/
def pyGetItem (v : PyVal) (key : String) : Except PyError PyVal :=
  match v with
  | .obj kvs =>
      match kvs.find? (fun kv => kv.1 == key) with
      | some kv => .ok kv.2
      | Option.none => .error .keyError
  | _ => .error .typeError

/-- Models Python `for x in v`: lists iterate elements, strings iterate
one-character strings, dicts iterate keys, `TypeError` otherwise. -/
def pyIterate (v : PyVal) : Except PyError (List PyVal) :=
  match v with
  | .arr l => .ok l
  | .str s => .ok (s.data.map (fun c => .str (String.mk [c])))
  | .obj kvs => .ok (kvs.map (fun kv => .str kv.1))
  | _ => .error .typeError

/-- Models Python `v.get(key, default)`: only dicts have `.get`, every other
value raises `AttributeError`. -/
def pyDictGet (v : PyVal) (key : String) (dflt : PyVal) : Except PyError PyVal :=
  match v with
  | .obj kvs =>
      match kvs.find? (fun kv => kv.1 == key) with
      | some kv => .ok kv.2
      | Option.none => .ok dflt
  | _ => .error .attributeError

/-- Models Python `v == s` against a string literal: string equality, `False`
(never an error) for non-strings. -/
def pyEqStr (v : PyVal) (s : String) : Bool :=
  match v with
  | .str t => t == s
  | _ => false

/-- Models Python `v.lower()`: only strings have `.lower`. -/
def pyLower (v : PyVal) : Except PyError String :=
  match v with
  | .str s => .ok (lowerStr s)
  | _ => .error .attributeError

/-- Models Python `v.lower().strip()`: only strings have `.lower`. -/
def pyLowerStrip (v : PyVal) : Except PyError String :=
  match v with
  | .str s => .ok (stripStr (lowerStr s))
  | _ => .error .attributeError

/-- Models Python `v.split(sep)` for a one-character separator: only strings
have `.split`. -/
def pySplit (v : PyVal) (sep : Char) : Except PyError (List String) :=
  match v with
  | .str s => .ok (splitChar sep s.data)
  | _ => .error .attributeError

/-- Models Python `l[i]` on a list of strings: `IndexError` out of range. -/
def pyIndexList (l : List String) (i : Nat) : Except PyError String :=
  match l.get? i with
  | some x => .ok x
  | Option.none => .error .indexError

/-- One row of `T_Raw_Intel` as handed to the correlation engine
(`SELECT id, source, type, title, url, cve_id, cvss_score, raw_data, status,
timestamp`).  `raw_data` holds the result of `json.loads` applied to the
stored payload text when that text is present and non-empty (`Except.error`
models `json.JSONDecodeError` on invalid JSON); `Option.none` models a NULL or
empty payload, which the code's truthiness guard skips.  `cvss_score` models
the dynamic column value: `Option.none` is NULL, the empty string or the
literal string `None` (all routed to the default by the code), `some
Option.none` is a non-numeric string on which `float()` raises, and
`some (some q)` is a value that parses to the number `q`. -/
structure IntelRecord where
  id : Nat
  source : String
  type : Option String
  title : Option String
  cve_id : Option String
  cvss_score : Option (Option ℚ)
  raw_data : Option (Except Unit PyVal)
  status : String
  timestamp : ℤ

/-- One row of `T_Assets`.  Text columns pass through `str(...)` in the code,
so they are modelled as plain strings. -/
structure Asset where
  id : Nat
  hostname : String
  os_version : String
  applications : String
  is_public : String
  business_criticality : String
  data_sensitivity : String

/-- The fixed keyword vocabulary scanned against NVD English descriptions
(`correlation_engine.py` lines 78-79). -/
def nvdKeywords : List String :=
  ["windows server", "sql server", "vmware", "esxi", "microsoft", "delphi", "eep"]

/-- The fixed keyword vocabulary scanned against RSS summaries
(`correlation_engine.py` line 87). -/
def rssKeywords : List String :=
  ["windows server", "sql server", "vmware", "esxi", "microsoft"]

/-- The title keyword→category table (`correlation_engine.py` lines 99-104),
in Python dict insertion order. -/
def titleKeywords : List (String × List String) :=
  [("windows server", ["windows server 2008", "windows server 2016", "windows server 2022"]),
   ("sql server", ["sql server", "mssql"]),
   ("vmware", ["vmware esxi", "vmware", "esxi"]),
   ("microsoft", ["microsoft"])]

/-- `extract_product_name_from_intel` (`correlation_engine.py` lines 24-112).
The `try` block catches only `json.JSONDecodeError` (modelled by the
`some (.error _)` arm); every other runtime error raised while probing the
decoded payload propagates.  The final `list(set([p.lower().strip() for p in
product_names if p]))` is rendered with `List.dedup`; the unspecified set
iteration order is irrelevant to every claim, which treat the result as a
set. -/
def extract_product_name_from_intel (intel : IntelRecord) : Except PyError (List String) := do
  let mut product_names : List PyVal := []
  match intel.raw_data with
  | Option.none => pure ()
  | some (.error _) => pure ()
  | some (.ok raw) =>
    -- CISA KEV shaped fields
    if (← pyContains raw "vulnerabilityName") then
      product_names := product_names ++ [← pyGetItem raw "vulnerabilityName"]
    if (← pyContains raw "product") then
      product_names := product_names ++ [← pyGetItem raw "product"]
    if (← pyContains raw "vendorProject") then
      product_names := product_names ++ [← pyGetItem raw "vendorProject"]
    -- NVD shaped payload
    if (← pyContains raw "cve") then
      let cve_data ← pyGetItem raw "cve"
      if (← pyContains cve_data "configurations") then
        for config in (← pyIterate (← pyGetItem cve_data "configurations")) do
          if (← pyContains config "nodes") then
            for node in (← pyIterate (← pyGetItem config "nodes")) do
              if (← pyContains node "cpeMatch") then
                for cpe in (← pyIterate (← pyGetItem node "cpeMatch")) do
                  if (← pyContains cpe "criteria") then
                    let cpe_parts ← pySplit (← pyGetItem cpe "criteria") ':'
                    if cpe_parts.length ≥ 4 then
                      let vendor ← pyIndexList cpe_parts 3
                      let product ← pyIndexList cpe_parts 4
                      if product != "" && product != "*" then
                        product_names := product_names ++ [.str (vendor ++ " " ++ product)]
                      if vendor != "" && vendor != "*" then
                        product_names := product_names ++ [.str vendor]
      if (← pyContains cve_data "descriptions") then
        for desc in (← pyIterate (← pyGetItem cve_data "descriptions")) do
          if pyEqStr (← pyDictGet desc "lang" .none) "en" then
            let text ← pyLower (← pyDictGet desc "value" (.str ""))
            for keyword in nvdKeywords do
              if strIn keyword text then
                product_names := product_names ++ [.str keyword]
    -- RSS shaped payload
    if (← pyContains raw "summary") then
      let summary ← pyLower (← pyGetItem raw "summary")
      for keyword in rssKeywords do
        if strIn keyword summary then
          product_names := product_names ++ [.str keyword]
  -- title keywords
  match intel.title with
  | Option.none => pure ()
  | some t =>
    if t != "" then
      let title := lowerStr t
      for ckv in titleKeywords do
        for variant in ckv.2 do
          if strIn variant title then
            product_names := product_names ++ [.str variant, .str ckv.1]
  -- dedup, keeping only truthy entries lowered and stripped
  let mut results : List String := []
  for p in product_names do
    if pyTruthy p then
      results := results ++ [← pyLowerStrip p]
  return results.dedup

/-- The per-(candidate, asset) fuzzy comparison of `match_cve_with_assets`
(`correlation_engine.py` lines 143-144): either lowercased asset field
contains the candidate, or the candidate contains either lowercased field. -/
def matchCond (product_name : String) (asset : Asset) : Bool :=
  strIn product_name (lowerStr asset.os_version) ||
  strIn product_name (lowerStr asset.applications) ||
  strIn (lowerStr asset.os_version) product_name ||
  strIn (lowerStr asset.applications) product_name

/-- The asset-scan loop of `match_cve_with_assets` (`correlation_engine.py`
lines 131-149), parameterised by the already-extracted candidate list.  The
inner loop with `break` appends an asset's id at the first matching candidate
and never twice, which is rendered as `List.any`; `list(set(...))` is
rendered as `List.dedup` (the claims treat the result as a set, so the
unspecified set iteration order is irrelevant). -/
def matchWithCandidates (product_names : List String) (assets : List Asset) : List Nat :=
  if product_names.isEmpty then []
  else
    (assets.filterMap (fun a =>
      if product_names.any (fun p => matchCond p a) then some a.id else Option.none)).dedup

/-- `match_cve_with_assets` (`correlation_engine.py` lines 115-149): extract
candidates from the intel record, then scan the asset list.  An error raised
by the extractor propagates to the caller. -/
def match_cve_with_assets (intel : IntelRecord) (assets : List Asset) :
    Except PyError (List Nat) := do
  let product_names ← extract_product_name_from_intel intel
  return matchWithCandidates product_names assets

/-- Round half to even on ℚ, modelling Python `round` to an integer. -/
def roundHalfEven (q : ℚ) : ℤ :=
  if q - ⌊q⌋ < 1/2 then ⌊q⌋
  else if 1/2 < q - ⌊q⌋ then ⌊q⌋ + 1
  else if ⌊q⌋ % 2 = 0 then ⌊q⌋ else ⌊q⌋ + 1

/-- Models Python `round(x, 2)`. -/
def round2 (q : ℚ) : ℚ :=
  (roundHalfEven (q * 100) : ℚ) / 100

/-- The base-score computation of `calculate_risk_score`
(`correlation_engine.py` lines 163-180): NULL, the empty string, the literal
string `None` and unparseable text all yield the default 7.0, as does a parsed
value that is zero, negative, or above 10. -/
def cvssBase (intel : IntelRecord) : ℚ :=
  match intel.cvss_score with
  | some (some q) => if q = 0 ∨ q < 0 ∨ q > 10 then 7 else q
  | _ => 7

/-- Multiplier condition 1 (`correlation_engine.py` line 186): the asset is
publicly exposed. -/
def publiclyExposed (a : Asset) : Bool :=
  upperStr a.is_public == "Y"

/-- Multiplier condition 2 (`correlation_engine.py` line 192): high or
critical business criticality (the code also accepts the Chinese word for
high). -/
def highBusinessCriticality (a : Asset) : Bool :=
  ["高", "HIGH", "CRITICAL"].contains (upperStr a.business_criticality)

/-- Multiplier condition 3 (`correlation_engine.py` line 198): the intel
source is the CISA KEV feed. -/
def kevSource (i : IntelRecord) : Bool :=
  i.source == "CISA_KEV"

/-- Multiplier condition 4 (`correlation_engine.py` lines 204-205): the
end-of-life marker `2008` occurs in the lowercased OS or application text. -/
def eolSystem (a : Asset) : Bool :=
  strIn "2008" (lowerStr a.os_version) || strIn "2008" (lowerStr a.applications)

/-- Multiplier condition 5 (`correlation_engine.py` line 211): high or
critical data sensitivity. -/
def highDataSensitivity (a : Asset) : Bool :=
  ["高", "HIGH", "CRITICAL"].contains (upperStr a.data_sensitivity)

/-- `calculate_risk_score` (`correlation_engine.py` lines 152-224): base score
from the CVSS field, then the five contextual multipliers applied to the
running value in the code's fixed order, then clamp at 10.0 and round to two
decimals. -/
def calculate_risk_score (intel : IntelRecord) (a : Asset) : ℚ :=
  let base := cvssBase intel
  let s1 := if publiclyExposed a then base * 1.5 else base
  let s2 := if highBusinessCriticality a then s1 * 1.3 else s1
  let s3 := if kevSource intel then s2 * 2.0 else s2
  let s4 := if eolSystem a then s3 * 1.2 else s3
  let s5 := if highDataSensitivity a then s4 * 1.1 else s4
  round2 (min 10.0 s5)

/-- The `type` normalisation of the orchestrator (`correlation_engine.py`
line 275): `intel_data.get('type', '').upper() if intel_data.get('type')
else ''`. -/
def typeUpper (r : IntelRecord) : String :=
  match r.type with
  | some t => if t == "" then "" else upperStr t
  | Option.none => ""

/-- The matched-asset list the orchestrator computes for one intel record
(`correlation_engine.py` lines 284-292): the CVE comparison runs only for
records whose normalised type is `CVE`; every other record keeps an empty
match list. -/
def matchedAssets (r : IntelRecord) (assets : List Asset) : Except PyError (List Nat) :=
  if typeUpper r == "CVE" then match_cve_with_assets r assets else .ok []

/-- One row prepared for `T_Validated_Threats` (`correlation_engine.py`
lines 315-321).  In the notes text the code formats a NULL `cve_id` through
an f-string, which prints `None`. -/
structure NewThreat where
  intel_id : Nat
  asset_id : Nat
  risk_score : ℚ
  status : String
  notes : String

/-- Builds the threat row for one (intel, asset) pair (`correlation_engine.py`
lines 312-321). -/
def mkThreat (r : IntelRecord) (a : Asset) : NewThreat :=
  { intel_id := r.id
    asset_id := a.id
    risk_score := calculate_risk_score r a
    status := "new"
    notes := "來源：" ++ r.source ++ ", CVE：" ++ (match r.cve_id with
      | some c => c
      | Option.none => "None") }

/-- The per-record body of the orchestrator loop (`correlation_engine.py`
lines 271-342), folded over the accumulated (threat rows, processed intel
ids).  A record with a falsy id is skipped without a status update; an
exception from matching is caught by the per-item handler, which appends the
id to the processed list if it is not there yet; a record with matches
contributes one threat row per matched asset id that resolves to an asset
row (first row with that id), and both branches mark the record processed. -/
def correlationStep (assets : List Asset) (acc : List NewThreat × List Nat)
    (r : IntelRecord) : List NewThreat × List Nat :=
  if r.id = 0 then acc
  else
    match matchedAssets r assets with
    | .error _ =>
        if r.id ∈ acc.2 then acc else (acc.1, acc.2 ++ [r.id])
    | .ok ids =>
        if ids.isEmpty then (acc.1, acc.2 ++ [r.id])
        else
          let rows := ids.filterMap (fun aid =>
            (assets.find? (fun a => a.id == aid)).map (fun a => mkThreat r a))
          (acc.1 ++ rows, acc.2 ++ [r.id])

/-- `run_correlation_analysis` (`correlation_engine.py` lines 227-424) as a
pure batch function: from the asset table and the raw-intel table it returns
the threat rows inserted into `T_Validated_Threats` and the status updates
applied to `T_Raw_Intel` (id paired with the new status string, from lines
371-379).  An empty asset table or an empty backlog of `new` records returns
early with no writes.  The SQL `ORDER BY timestamp DESC` only fixes the
processing order inside one pass and is modelled by the given list order;
every claim below is order-independent. -/
def run_correlation_analysis (assets : List Asset) (intel : List IntelRecord) :
    List NewThreat × List (Nat × String) :=
  if assets.isEmpty then ([], [])
  else
    let newIntel := intel.filter (fun r => r.status == "new")
    if newIntel.isEmpty then ([], [])
    else
      let res := newIntel.foldl (correlationStep assets) ([], [])
      (res.1, res.2.map (fun i =>
        (i, if res.1.any (fun t => t.intel_id == i) then "processed" else "logged (no match)")))

/-- One row of `T_Validated_Threats` as read back by the notification
dispatcher queries, with its creation timestamp in seconds. -/
structure VThreatRow where
  id : Nat
  intel_id : Nat
  asset_id : Nat
  risk_score : ℚ
  status : String
  timestamp : ℤ
deriving DecidableEq

/-- The slice of the nested YAML configuration read by the notification
handler.  `Option` fields model keys that may be absent, resolved through the
code's `.get(key, default)` calls; `recipients` models the group→address
dict as an association list. -/
structure NotifConfig where
  enabled : Bool
  emailEnabled : Bool
  thresholdHigh : Option ℚ
  thresholdCritical : Option ℚ
  criticalTierEnabled : Option Bool
  criticalTierRecipients : List String
  highDailyEnabled : Option Bool
  highDailyRecipients : List String
  weeklyEnabled : Option Bool
  weeklyRecipients : List String
  recipients : List (String × String)
  toAddress : String
  smtpServer : String
  fromAddress : String

/-- `thresholds.get('critical', 9.0)` (`notification_handler.py` lines
270-272 and 632-633). -/
def criticalThreshold (cfg : NotifConfig) : ℚ :=
  cfg.thresholdCritical.getD 9

/-- `thresholds.get('high', 7.0)` (`notification_handler.py` line 271). -/
def highThreshold (cfg : NotifConfig) : ℚ :=
  cfg.thresholdHigh.getD 7

/-- The recipient-group resolution pattern shared by the three tier workflows
(`notification_handler.py` lines 209-223, 313-328 and 415-430): when the
tier is enabled (default true), map each named group through the
group→address dict, keeping only groups that resolve to a truthy address
(a missing group or an empty address is skipped silently); when nothing
resolves, fall back to the legacy `email.to_address` if that is truthy. -/
def resolveTier (tierEnabled : Option Bool) (groups : List String)
    (recipients : List (String × String)) (fallback : String) : List String :=
  let t :=
    if tierEnabled.getD true then
      groups.filterMap (fun g =>
        match (recipients.find? (fun kv => kv.1 == g)).map (fun kv => kv.2) with
        | some a => if a == "" then Option.none else some a
        | Option.none => Option.none)
    else []
  if t.isEmpty then (if fallback == "" then [] else [fallback]) else t

/-- The row selection of `check_and_notify_critical_threats`
(`notification_handler.py` lines 622-700): nothing when notifications are
disabled; otherwise the rows with `risk_score` strictly above the critical
threshold, status `new`, created within the trailing hour
(`vt.timestamp >= datetime('now', '-1 hour')`).  Each returned row is then
handed to `notify_critical_threat`. -/
def check_and_notify_critical_threats (cfg : NotifConfig) (now : ℤ)
    (rows : List VThreatRow) : List VThreatRow :=
  if !cfg.enabled then []
  else
    rows.filter (fun r =>
      decide (criticalThreshold cfg < r.risk_score) && (r.status == "new") &&
      decide (now - 3600 ≤ r.timestamp))

/-- `notify_high_risk_daily_summary` (`notification_handler.py` lines
256-364): nothing when notifications are disabled; otherwise select the rows
of the trailing 24 hours with `high_threshold < risk_score ≤
critical_threshold` at status `new`; when the selection is non-empty and
email is enabled, send one digest message per resolved recipient.  Returns
(selected rows, addresses that each receive one digest). -/
def notify_high_risk_daily_summary (cfg : NotifConfig) (now : ℤ)
    (rows : List VThreatRow) : List VThreatRow × List String :=
  if !cfg.enabled then ([], [])
  else
    let sel := rows.filter (fun r =>
      decide (highThreshold cfg < r.risk_score) &&
      decide (r.risk_score ≤ criticalThreshold cfg) && (r.status == "new") &&
      decide (now - 86400 ≤ r.timestamp))
    if sel.isEmpty then ([], [])
    else if cfg.emailEnabled then
      (sel, resolveTier cfg.highDailyEnabled cfg.highDailyRecipients cfg.recipients cfg.toAddress)
    else (sel, [])

/-- `notify_weekly_report` (`notification_handler.py` lines 367-485) reduced
to its observable recipient behaviour: the pair is (the surfaced error
messages about undeliverable configuration, the addresses the report is sent
to).  When email is disabled the function logs and returns; an explicitly
passed target address bypasses group resolution; an empty resolution, a
missing SMTP server or a missing sender address each surface one error
message and send nothing; otherwise one message per resolved address is
sent and no warning is surfaced. -/
def notify_weekly_report (cfg : NotifConfig) (targetEmail : Option String) :
    List String × List String :=
  if !cfg.emailEnabled then ([], [])
  else
    let targets :=
      match targetEmail with
      | some t => [t]
      | Option.none =>
          resolveTier cfg.weeklyEnabled cfg.weeklyRecipients cfg.recipients cfg.toAddress
    if targets.isEmpty then (["錯誤：收件者 Email 為空，無法發送週報。"], [])
    else if cfg.smtpServer == "" then (["錯誤：SMTP 伺服器未設定，無法發送週報。"], [])
    else if cfg.fromAddress == "" then (["錯誤：發送者 Email 未設定，無法發送週報。"], [])
    else ([], targets)

/-- The base-score rule in the words of the specification (claim C1): the
intel's numeric CVSS value when present, parseable and within (0, 10],
otherwise the default 7.0.  This definition follows the spec text and is
compared with the source-derived `cvssBase`. -/
def specBase (intel : IntelRecord) : ℚ :=
  match intel.cvss_score with
  | some (some q) => if 0 < q ∧ q ≤ 10 then q else 7
  | _ => 7

/-- The risk-score formula in the words of the specification (claim C1): the
running value starts at the base and is multiplied, in the fixed order, by
1.5, 1.3, 2.0, 1.2 and 1.1 for each true condition, then clamped at 10.0 and
rounded to two decimals.  This definition follows the spec text and is
compared with the source-derived `calculate_risk_score`. -/
def riskScoreSpec (intel : IntelRecord) (a : Asset) : ℚ :=
  round2 (min 10.0 (specBase intel *
    (if publiclyExposed a then 1.5 else 1) *
    (if highBusinessCriticality a then 1.3 else 1) *
    (if kevSource intel then 2.0 else 1) *
    (if eolSystem a then 1.2 else 1) *
    (if highDataSensitivity a then 1.1 else 1)))

lemma cvssBase_eq_specBase (intel : IntelRecord) : cvssBase intel = specBase intel := by
  unfold cvssBase specBase
  rcases intel.cvss_score with _ | (_ | q)
  · rfl
  · rfl
  · dsimp only
    split_ifs with h1 h2 h3 <;> try rfl
    · rcases h1 with h | h | h <;> [exact absurd h2.1.ne.symm (by simpa using h); linarith [h2.1]; linarith [h2.2]]
    · push_neg at h1
      exact absurd ⟨lt_of_le_of_ne h1.2.1 (Ne.symm h1.1), h1.2.2⟩ h3

lemma ite_mul_shift (c : Bool) (x k : ℚ) :
    (if c = true then x * k else x) = x * (if c = true then k else 1) := by
  cases c <;> simp

lemma calculate_eq_spec_form (intel : IntelRecord) (a : Asset) :
    calculate_risk_score intel a = riskScoreSpec intel a := by
  unfold calculate_risk_score riskScoreSpec
  rw [cvssBase_eq_specBase]
  simp only [ite_mul_shift]

lemma roundHalfEven_mono {a b : ℚ} (h : a ≤ b) : roundHalfEven a ≤ roundHalfEven b := by
  unfold roundHalfEven
  have hf : ⌊a⌋ ≤ ⌊b⌋ := Int.floor_le_floor h
  rcases eq_or_lt_of_le hf with heq | hlt
  · rw [← heq]
    have hfa : (⌊a⌋ : ℚ) ≤ a := Int.floor_le a
    have hd : a - ⌊a⌋ ≤ b - ⌊a⌋ := by linarith
    split_ifs <;> first | omega | linarith
  · split_ifs <;> omega

lemma round2_mono {a b : ℚ} (h : a ≤ b) : round2 a ≤ round2 b := by
  unfold round2
  have h1 : roundHalfEven (a * 100) ≤ roundHalfEven (b * 100) :=
    roundHalfEven_mono (by linarith)
  have h2 : ((roundHalfEven (a * 100) : ℚ)) ≤ ((roundHalfEven (b * 100) : ℚ)) := by
    exact_mod_cast h1
  linarith

lemma roundHalfEven_le_int {q : ℚ} {n : ℤ} (h : q ≤ n) : roundHalfEven q ≤ n := by
  unfold roundHalfEven
  have hfl : ⌊q⌋ ≤ n := by
    have := Int.floor_le_floor h
    simpa using this
  have hfa : (⌊q⌋ : ℚ) ≤ q := Int.floor_le q
  split_ifs with h1 h2 h3
  · exact hfl
  · -- 1/2 < q - ⌊q⌋, so ⌊q⌋ < n
    have hc : (⌊q⌋ : ℚ) < (n : ℚ) := by linarith
    have : ⌊q⌋ < n := by exact_mod_cast hc
    omega
  · exact hfl
  · have hc : (⌊q⌋ : ℚ) < (n : ℚ) := by linarith
    have : ⌊q⌋ < n := by exact_mod_cast hc
    omega

lemma round2_le_ten {q : ℚ} (h : q ≤ 10) : round2 q ≤ 10 := by
  unfold round2
  have h1 : roundHalfEven (q * 100) ≤ (1000 : ℤ) :=
    roundHalfEven_le_int (by push_cast; linarith)
  have h2 : ((roundHalfEven (q * 100) : ℚ)) ≤ 1000 := by exact_mod_cast h1
  linarith

lemma specBase_pos (intel : IntelRecord) : 0 < specBase intel := by
  unfold specBase
  rcases intel.cvss_score with _ | (_ | q)
  · norm_num
  · norm_num
  · dsimp only
    split_ifs with h
    · exact h.1
    · norm_num

lemma ite_factor_le (c c' : Bool) (k : ℚ) (hk : 1 ≤ k) (h : c = true → c' = true) :
    (if c = true then k else 1) ≤ (if c' = true then k else 1) := by
  cases c <;> cases c' <;> simp_all

lemma ite_factor_nonneg (c : Bool) (k : ℚ) (hk : 0 ≤ k) :
    (0 : ℚ) ≤ (if c = true then k else 1) := by
  cases c <;> simp [hk]

/-- Claim C1: the risk scorer computes exactly the specified formula — base
equal to the CVSS value when present, parseable and within (0, 10] and 7.0
otherwise, then the five contextual multipliers applied to the running value
in the fixed order (public exposure 1.5, business criticality 1.3, CISA KEV
source 2.0, end-of-life marker 1.2, data sensitivity 1.1), then a clamp at
10.0 and rounding to two decimal places. -/
theorem riskScore_matches_spec (intel : IntelRecord) (a : Asset) :
    calculate_risk_score intel a = riskScoreSpec intel a :=
  calculate_eq_spec_form intel a

/-- Claim C2: with the base score fixed, making more multiplier conditions
true never decreases the returned risk score, and the returned risk score
never exceeds 10.0. -/
theorem riskScore_monotone_bounded :
    (∀ i a i2 a2, cvssBase i = cvssBase i2 →
      (publiclyExposed a = true → publiclyExposed a2 = true) →
      (highBusinessCriticality a = true → highBusinessCriticality a2 = true) →
      (kevSource i = true → kevSource i2 = true) →
      (eolSystem a = true → eolSystem a2 = true) →
      (highDataSensitivity a = true → highDataSensitivity a2 = true) →
      calculate_risk_score i a ≤ calculate_risk_score i2 a2) ∧
    (∀ i a, calculate_risk_score i a ≤ 10) := by
  constructor
  · intro i a i2 a2 hbase h1 h2 h3 h4 h5
    rw [calculate_eq_spec_form, calculate_eq_spec_form]
    unfold riskScoreSpec
    apply round2_mono
    apply min_le_min (le_refl (10.0 : ℚ))
    have hsb : specBase i = specBase i2 := by
      rw [← cvssBase_eq_specBase, ← cvssBase_eq_specBase, hbase]
    have hb2 : (0 : ℚ) ≤ specBase i2 := (specBase_pos i2).le
    have w1 := ite_factor_le (publiclyExposed a) (publiclyExposed a2)
      (1.5 : ℚ) (by norm_num) h1
    have w2 := ite_factor_le (highBusinessCriticality a)
      (highBusinessCriticality a2) (1.3 : ℚ) (by norm_num) h2
    have w3 := ite_factor_le (kevSource i) (kevSource i2)
      (2.0 : ℚ) (by norm_num) h3
    have w4 := ite_factor_le (eolSystem a) (eolSystem a2)
      (1.2 : ℚ) (by norm_num) h4
    have w5 := ite_factor_le (highDataSensitivity a)
      (highDataSensitivity a2) (1.1 : ℚ) (by norm_num) h5
    have n1 := ite_factor_nonneg (publiclyExposed a) (1.5 : ℚ) (by norm_num)
    have n1b := ite_factor_nonneg (publiclyExposed a2) (1.5 : ℚ) (by norm_num)
    have n2 := ite_factor_nonneg (highBusinessCriticality a) (1.3 : ℚ) (by norm_num)
    have n2b := ite_factor_nonneg (highBusinessCriticality a2) (1.3 : ℚ) (by norm_num)
    have n3 := ite_factor_nonneg (kevSource i) (2.0 : ℚ) (by norm_num)
    have n3b := ite_factor_nonneg (kevSource i2) (2.0 : ℚ) (by norm_num)
    have n4 := ite_factor_nonneg (eolSystem a) (1.2 : ℚ) (by norm_num)
    have n4b := ite_factor_nonneg (eolSystem a2) (1.2 : ℚ) (by norm_num)
    have n5 := ite_factor_nonneg (highDataSensitivity a) (1.1 : ℚ) (by norm_num)
    have p0 : specBase i ≤ specBase i2 := le_of_eq hsb
    have p1 := mul_le_mul p0 w1 n1 hb2
    have q1 : (0 : ℚ) ≤ specBase i2 * (if publiclyExposed a2 = true then (1.5 : ℚ) else 1) :=
      mul_nonneg hb2 n1b
    have p2 := mul_le_mul p1 w2 n2 q1
    have q2 : (0 : ℚ) ≤ specBase i2 * (if publiclyExposed a2 = true then (1.5 : ℚ) else 1) *
        (if highBusinessCriticality a2 = true then (1.3 : ℚ) else 1) := mul_nonneg q1 n2b
    have p3 := mul_le_mul p2 w3 n3 q2
    have q3 := mul_nonneg q2 n3b
    have p4 := mul_le_mul p3 w4 n4 q3
    have q4 := mul_nonneg q3 n4b
    exact mul_le_mul p4 w5 n5 q4
  · intro i a
    unfold calculate_risk_score
    apply round2_le_ten
    have h10 : (10.0 : ℚ) = 10 := by norm_num
    calc min (10.0 : ℚ) _ ≤ (10.0 : ℚ) := min_le_left _ _
      _ = 10 := h10

/-- Concrete intel record used to exercise claim C2. -/
def intelC2 : IntelRecord :=
  { id := 1, source := "NVD", type := some "CVE", title := Option.none,
    cve_id := Option.none, cvss_score := Option.none,
    raw_data := Option.none, status := "new", timestamp := 0 }

/-- Asset with no multiplier condition true, used to exercise claim C2. -/
def assetC2a : Asset :=
  { id := 1, hostname := "h1", os_version := "Ubuntu 22.04",
    applications := "nginx", is_public := "N",
    business_criticality := "Low", data_sensitivity := "Low" }

/-- Asset with one more multiplier condition true, used to exercise C2. -/
def assetC2b : Asset :=
  { id := 2, hostname := "h2", os_version := "Ubuntu 22.04",
    applications := "nginx", is_public := "Y",
    business_criticality := "Low", data_sensitivity := "Low" }

theorem riskScore_monotone_bounded_witness :
    calculate_risk_score intelC2 assetC2a ≤ calculate_risk_score intelC2 assetC2b ∧
    calculate_risk_score intelC2 assetC2a ≤ 10 :=
  ⟨riskScore_monotone_bounded.1 intelC2 assetC2a intelC2 assetC2b rfl
      (by decide) (by decide) (by decide) (by decide) (by decide),
   riskScore_monotone_bounded.2 intelC2 assetC2a⟩

lemma ite_some_none {c : Prop} [Decidable c] {x y : Nat} :
    ((if c then some x else Option.none) = some y) ↔ (c ∧ x = y) := by
  split <;> simp_all

lemma mem_matchWithCandidates {names : List String} {assets : List Asset} {aid : Nat} :
    aid ∈ matchWithCandidates names assets ↔
      ∃ a, a ∈ assets ∧ a.id = aid ∧ ∃ p, p ∈ names ∧ matchCond p a = true := by
  unfold matchWithCandidates
  by_cases he : names.isEmpty
  · rw [if_pos he]
    rw [List.isEmpty_iff] at he
    subst he
    simp
  · rw [if_neg he]
    simp only [List.mem_dedup, List.mem_filterMap, ite_some_none, List.any_eq_true]
    constructor
    · rintro ⟨a, ha, ⟨p, hp, hcond⟩, hid⟩
      exact ⟨a, ha, hid, p, hp, hcond⟩
    · rintro ⟨a, ha, hid, p, hp, hcond⟩
      exact ⟨a, ha, ⟨p, hp, hcond⟩, hid⟩

/-- Claim C3: the asset matcher returns an empty list for an empty candidate
set without scanning; it is deduplicated; and an asset id is returned exactly
when some candidate is a substring of the asset's lowercased os/application
text or contains one of those fields as a substring — at most one id per
asset row regardless of how many candidates match. -/
theorem matcher_characterised :
    (∀ assets, matchWithCandidates [] assets = []) ∧
    (∀ names assets, (matchWithCandidates names assets).Nodup) ∧
    (∀ names assets aid, aid ∈ matchWithCandidates names assets ↔
      ∃ a, a ∈ assets ∧ a.id = aid ∧ ∃ p, p ∈ names ∧ matchCond p a = true) := by
  refine ⟨fun assets => rfl, fun names assets => ?_, fun _ _ _ => mem_matchWithCandidates⟩
  unfold matchWithCandidates
  split
  · exact List.nodup_nil
  · exact List.nodup_dedup _

lemma strIn_empty_needle (h : String) : strIn "" h = true := by
  unfold strIn
  rcases h with ⟨d⟩
  cases d <;> simp [List.isPrefixOf, List.tails]

/-- Claim C10: with a non-empty candidate set, every asset whose lowercased
os_version or applications field is the empty string is matched, whatever
the candidates are, because the empty string is a substring of every
candidate under the superset-match direction. -/
theorem empty_field_matches_all :
    ∀ names assets (a : Asset), names ≠ [] → a ∈ assets →
      (lowerStr a.os_version = "" ∨ lowerStr a.applications = "") →
      a.id ∈ matchWithCandidates names assets := by
  intro names assets a hne ha hempty
  obtain ⟨p, hp⟩ := List.exists_mem_of_ne_nil names hne
  have hcond : matchCond p a = true := by
    unfold matchCond
    rcases hempty with h | h <;> rw [h] <;>
      simp [strIn_empty_needle]
  exact mem_matchWithCandidates.mpr ⟨a, ha, rfl, p, hp, hcond⟩

/-- Asset whose free-text fields are empty, used to exercise claim C10. -/
def assetC10 : Asset :=
  { id := 7, hostname := "legacy", os_version := "", applications := "",
    is_public := "N", business_criticality := "Low", data_sensitivity := "Low" }

theorem empty_field_matches_all_witness :
    (7 : Nat) ∈ matchWithCandidates ["oracle weblogic"] [assetC10] :=
  empty_field_matches_all ["oracle weblogic"] [assetC10] assetC10
    (by decide) (List.mem_cons_self _ _) (Or.inl (by decide))

/-- An intel record whose NVD configuration tree carries a colon-delimited
platform identifier with exactly four fields — the decoded payload is
`raw_data = obj cve (obj configurations [obj nodes [obj cpeMatch [obj
criteria "cpe:2.3:a:x"]]])`, i.e. the JSON text
`\x7b"cve": \x7b"configurations": [\x7b"nodes": [\x7b"cpeMatch":
[\x7b"criteria": "cpe:2.3:a:x"\x7d]\x7d]\x7d]\x7d\x7d`. -/
def intelC6 : IntelRecord :=
  { id := 6, source := "NVD", type := some "CVE", title := Option.none,
    cve_id := Option.none, cvss_score := Option.none,
    raw_data := some (.ok (.obj [("cve", .obj [("configurations",
      .arr [.obj [("nodes", .arr [.obj [("cpeMatch",
        .arr [.obj [("criteria", .str "cpe:2.3:a:x")]])]])]])])])),
    status := "new", timestamp := 0 }

/-- Claim C6: the candidate extractor raises an uncaught `IndexError` on a
well-formed payload whose colon-delimited platform identifier has exactly
four fields, because the guard `len(cpe_parts) >= 4` still allows the access
`cpe_parts[4]`; the `except` clause catches only `json.JSONDecodeError`, so
the error escapes instead of yielding a candidate set. -/
theorem extractor_indexerror_on_short_cpe :
    extract_product_name_from_intel intelC6 = Except.error PyError.indexError := by
  rfl

lemma correlationStep_processed_mono {assets : List Asset}
    {acc : List NewThreat × List Nat} {r : IntelRecord} {i : Nat} (h : i ∈ acc.2) :
    i ∈ (correlationStep assets acc r).2 := by
  unfold correlationStep
  by_cases h0 : r.id = 0
  · simp only [h0, if_true]
    exact h
  · rw [if_neg h0]
    rcases hma : matchedAssets r assets with e | ids
    · by_cases hmem : r.id ∈ acc.2 <;> simp [hmem, List.mem_append, h]
    · by_cases hempty : ids.isEmpty <;> simp [hempty, List.mem_append, h]

lemma correlationStep_processed_self {assets : List Asset}
    {acc : List NewThreat × List Nat} {r : IntelRecord} (h0 : r.id ≠ 0) :
    r.id ∈ (correlationStep assets acc r).2 := by
  unfold correlationStep
  rw [if_neg h0]
  rcases hma : matchedAssets r assets with e | ids
  · by_cases hmem : r.id ∈ acc.2 <;> simp [hmem, List.mem_append]
  · by_cases hempty : ids.isEmpty <;> simp [hempty, List.mem_append]

lemma foldl_processed_mono {assets : List Asset} (l : List IntelRecord)
    {acc : List NewThreat × List Nat} {i : Nat} (h : i ∈ acc.2) :
    i ∈ (l.foldl (correlationStep assets) acc).2 := by
  induction l generalizing acc with
  | nil => exact h
  | cons x tl ih => exact ih (correlationStep_processed_mono h)

lemma foldl_processed_of_mem {assets : List Asset} {l : List IntelRecord}
    {acc : List NewThreat × List Nat} {r : IntelRecord} (hr : r ∈ l) (h0 : r.id ≠ 0) :
    r.id ∈ (l.foldl (correlationStep assets) acc).2 := by
  induction l generalizing acc with
  | nil => cases hr
  | cons x tl ih =>
    rcases List.mem_cons.mp hr with rfl | hr2
    · exact foldl_processed_mono tl (correlationStep_processed_self h0)
    · exact ih hr2

lemma correlationStep_threats_src {assets : List Asset}
    {acc : List NewThreat × List Nat} {r : IntelRecord} {t : NewThreat}
    (h : t ∈ (correlationStep assets acc r).1) :
    t ∈ acc.1 ∨ (t.intel_id = r.id ∧ ∃ ids, matchedAssets r assets = .ok ids ∧ ids ≠ []) := by
  unfold correlationStep at h
  by_cases h0 : r.id = 0
  · rw [if_pos h0] at h
    exact Or.inl h
  · rw [if_neg h0] at h
    rcases hma : matchedAssets r assets with e | ids <;> rw [hma] at h <;>
      dsimp only at h
    · by_cases hmem : r.id ∈ acc.2 <;> simp [hmem] at h <;> exact Or.inl h
    · by_cases hempty : ids.isEmpty
      · rw [if_pos hempty] at h
        exact Or.inl h
      · rw [if_neg hempty] at h
        rcases List.mem_append.mp h with h1 | h2
        · exact Or.inl h1
        · obtain ⟨aid, _, hsome⟩ := List.mem_filterMap.mp h2
          rcases hfind : assets.find? (fun a => a.id == aid) with _ | a <;>
            rw [hfind] at hsome
          · simp at hsome
          · simp only [Option.map_some'] at hsome
            refine Or.inr ⟨?_, ids, rfl, by simpa [List.isEmpty_iff] using hempty⟩
            rw [← Option.some.injEq] at hsome
            simp only [Option.some.injEq] at hsome
            rw [← hsome]
            rfl

lemma foldl_threats_src {assets : List Asset} {l : List IntelRecord}
    {acc : List NewThreat × List Nat} {t : NewThreat}
    (h : t ∈ (l.foldl (correlationStep assets) acc).1) :
    t ∈ acc.1 ∨ ∃ r, r ∈ l ∧ t.intel_id = r.id ∧
      ∃ ids, matchedAssets r assets = .ok ids ∧ ids ≠ [] := by
  induction l generalizing acc with
  | nil => exact Or.inl h
  | cons x tl ih =>
    rcases ih h with hin | ⟨r, hr, hrest⟩
    · rcases correlationStep_threats_src hin with h1 | h2
      · exact Or.inl h1
      · exact Or.inr ⟨x, List.mem_cons_self x tl, h2⟩
    · exact Or.inr ⟨r, List.mem_cons_of_mem x hr, hrest⟩

lemma correlationStep_processed_src {assets : List Asset}
    {acc : List NewThreat × List Nat} {r : IntelRecord} {i : Nat}
    (h : i ∈ (correlationStep assets acc r).2) :
    i ∈ acc.2 ∨ i = r.id := by
  unfold correlationStep at h
  by_cases h0 : r.id = 0
  · rw [if_pos h0] at h
    exact Or.inl h
  · rw [if_neg h0] at h
    rcases hma : matchedAssets r assets with e | ids <;> rw [hma] at h <;>
      dsimp only at h
    · by_cases hmem : r.id ∈ acc.2
      · rw [if_pos hmem] at h
        exact Or.inl h
      · rw [if_neg hmem] at h
        rcases List.mem_append.mp h with h1 | h2
        · exact Or.inl h1
        · exact Or.inr (List.mem_singleton.mp h2)
    · by_cases hempty : ids.isEmpty <;> simp [hempty, List.mem_append] at h <;>
        rcases h with h1 | h2 <;> first | exact Or.inl h1 | exact Or.inr h2

lemma foldl_processed_src {assets : List Asset} {l : List IntelRecord}
    {acc : List NewThreat × List Nat} {i : Nat}
    (h : i ∈ (l.foldl (correlationStep assets) acc).2) :
    i ∈ acc.2 ∨ ∃ r, r ∈ l ∧ r.id = i := by
  induction l generalizing acc with
  | nil => exact Or.inl h
  | cons x tl ih =>
    rcases ih h with hin | ⟨r, hr, hid⟩
    · rcases correlationStep_processed_src hin with h1 | h2
      · exact Or.inl h1
      · exact Or.inr ⟨x, List.mem_cons_self x tl, h2.symm⟩
    · exact Or.inr ⟨r, List.mem_cons_of_mem x hr, hid⟩

/-- Claim C7 (amended to the code's status literal): an intel record of the
batch whose matched-asset list is empty is marked with the terminal status
string `logged (no match)` and contributes zero validated-threat rows. -/
theorem no_match_marks_logged :
    ∀ (assets : List Asset) (intel : List IntelRecord) (r : IntelRecord),
      assets ≠ [] → (intel.map (fun x => x.id)).Nodup →
      r ∈ intel → r.status = "new" → r.id ≠ 0 →
      matchedAssets r assets = .ok [] →
      ((r.id, "logged (no match)") ∈ (run_correlation_analysis assets intel).2 ∧
       (run_correlation_analysis assets intel).1.filter
         (fun t => t.intel_id == r.id) = []) := by
  intro assets intel r hassets hnodup hr hstat h0 hmatch
  unfold run_correlation_analysis
  rw [if_neg (by simp [List.isEmpty_iff, hassets])]
  have hrNew : r ∈ intel.filter (fun x => x.status == "new") :=
    List.mem_filter.mpr ⟨hr, by simp [hstat]⟩
  rw [if_neg (by simp only [List.isEmpty_iff]; exact List.ne_nil_of_mem hrNew)]
  have hthreats : ∀ t ∈ ((intel.filter (fun x => x.status == "new")).foldl
      (correlationStep assets) ([], [])).1, ¬(t.intel_id == r.id) = true := by
    intro t ht hbeq
    rcases foldl_threats_src ht with hin | ⟨r2, hr2, hid2, ids, hok, hne⟩
    · simp at hin
    · have hr2' : r2 ∈ intel := List.mem_of_mem_filter hr2
      have heq : r2 = r := by
        apply List.inj_on_of_nodup_map hnodup hr2' hr
        have : t.intel_id = r.id := by simpa using hbeq
        rw [← hid2, this]
      rw [heq, hmatch] at hok
      exact hne (by simpa using hok.symm)
  constructor
  · apply List.mem_map.mpr
    refine ⟨r.id, foldl_processed_of_mem hrNew h0, ?_⟩
    have hany : (((intel.filter (fun x => x.status == "new")).foldl
        (correlationStep assets) ([], [])).1.any (fun t => t.intel_id == r.id)) = false :=
      List.any_eq_false.mpr hthreats
    rw [hany]
    rfl
  · exact List.filter_eq_nil_iff.mpr hthreats

/-- Claim C8: for a record whose status is already past `new` (any of the
terminal statuses), another correlation pass creates no validated-threat row
referencing it and applies no status update to it. -/
theorem past_new_idempotent :
    ∀ (assets : List Asset) (intel : List IntelRecord) (r : IntelRecord),
      (intel.map (fun x => x.id)).Nodup → r ∈ intel → r.status ≠ "new" →
      ((run_correlation_analysis assets intel).1.filter
         (fun t => t.intel_id == r.id) = [] ∧
       (run_correlation_analysis assets intel).2.filter
         (fun u => u.1 == r.id) = []) := by
  intro assets intel r hnodup hr hstat
  unfold run_correlation_analysis
  by_cases hae : assets.isEmpty
  · rw [if_pos hae]
    exact ⟨rfl, rfl⟩
  · rw [if_neg hae]
    by_cases hni : (intel.filter (fun x => x.status == "new")).isEmpty
    · rw [if_pos hni]
      exact ⟨rfl, rfl⟩
    · rw [if_neg hni]
      have hnotnew : ∀ r2 ∈ intel.filter (fun x => x.status == "new"), r2.id ≠ r.id := by
        intro r2 hr2 hid
        have hr2' : r2 ∈ intel := List.mem_of_mem_filter hr2
        have heq : r2 = r := List.inj_on_of_nodup_map hnodup hr2' hr hid
        have : (r2.status == "new") = true := (List.mem_filter.mp hr2).2
        rw [heq] at this
        exact hstat (by simpa using this)
      constructor
      · apply List.filter_eq_nil_iff.mpr
        intro t ht hbeq
        rcases foldl_threats_src ht with hin | ⟨r2, hr2, hid2, _, _, _⟩
        · simp at hin
        · exact hnotnew r2 hr2 (by rw [← hid2]; simpa using hbeq)
      · apply List.filter_eq_nil_iff.mpr
        intro u hu hbeq
        obtain ⟨i, hi, hfe⟩ := List.mem_map.mp hu
        rcases foldl_processed_src hi with hin | ⟨r2, hr2, hid2⟩
        · simp at hin
        · apply hnotnew r2 hr2
          have hu1 : u.1 = i := by rw [← hfe]
          have hir : i = r.id := by
            rw [← hu1]
            simpa using hbeq
          exact hid2.trans hir

/-- Asset used by the claim C7 and C8 concrete runs. -/
def assetC7 : Asset :=
  { id := 21, hostname := "web01", os_version := "Ubuntu 22.04",
    applications := "nginx", is_public := "N",
    business_criticality := "Low", data_sensitivity := "Low" }

/-- Intel record with no extractable candidates, so its matched-asset list is
empty. -/
def intelC7 : IntelRecord :=
  { id := 3, source := "RSS", type := some "CVE", title := Option.none,
    cve_id := Option.none, cvss_score := Option.none,
    raw_data := Option.none, status := "new", timestamp := 0 }

theorem no_match_marks_logged_witness :
    ((3 : Nat), "logged (no match)") ∈ (run_correlation_analysis [assetC7] [intelC7]).2 ∧
    (run_correlation_analysis [assetC7] [intelC7]).1.filter
      (fun t => t.intel_id == 3) = [] :=
  no_match_marks_logged [assetC7] [intelC7] intelC7 (List.cons_ne_nil _ _)
    (by decide) (List.mem_cons_self _ _) rfl (by decide) rfl

/-- The status literal the code actually writes for a no-match record is
`logged (no match)` (`correlation_engine.py` line 374), not the
`logged_no_match` label used by the specification. -/
theorem no_match_status_literal_counterexample :
    run_correlation_analysis [assetC7] [intelC7] = ([], [(3, "logged (no match)")]) ∧
    "logged (no match)" ≠ "logged_no_match" := by
  constructor
  · rfl
  · decide

/-- Intel record already past `new`, used to exercise claim C8. -/
def intelC8 : IntelRecord :=
  { id := 4, source := "RSS", type := some "CVE", title := Option.none,
    cve_id := Option.none, cvss_score := Option.none,
    raw_data := Option.none, status := "processed", timestamp := 0 }

theorem past_new_idempotent_witness :
    (run_correlation_analysis [assetC7] [intelC8]).1.filter
      (fun t => t.intel_id == 4) = [] ∧
    (run_correlation_analysis [assetC7] [intelC8]).2.filter
      (fun u => u.1 == 4) = [] :=
  past_new_idempotent [assetC7] [intelC8] intelC8 (by decide)
    (List.mem_cons_self _ _) (by decide)

/-- Claim C4 (amended to the code's strict comparison): the critical-tier
dispatch selects exactly the rows whose risk score is strictly greater than
the configured critical threshold, whose status is `new`, and which were
created within the trailing hour — given that notifications are enabled. -/
theorem critical_selection_strict :
    ∀ cfg now rows (r : VThreatRow),
      r ∈ check_and_notify_critical_threats cfg now rows ↔
        (cfg.enabled = true ∧ r ∈ rows ∧ criticalThreshold cfg < r.risk_score ∧
         r.status = "new" ∧ now - 3600 ≤ r.timestamp) := by
  intro cfg now rows r
  unfold check_and_notify_critical_threats
  by_cases he : cfg.enabled <;>
    simp [he, List.mem_filter, and_assoc]

/-- Notification configuration with default thresholds, used for claim C4. -/
def cfgC4 : NotifConfig :=
  { enabled := true, emailEnabled := true, thresholdHigh := Option.none,
    thresholdCritical := Option.none, criticalTierEnabled := Option.none,
    criticalTierRecipients := [], highDailyEnabled := Option.none,
    highDailyRecipients := [], weeklyEnabled := Option.none,
    weeklyRecipients := [], recipients := [], toAddress := "",
    smtpServer := "", fromAddress := "" }

/-- A validated threat scoring exactly the default critical threshold 9.0,
fresh and at status `new`, used for claim C4. -/
def rowC4 : VThreatRow :=
  { id := 1, intel_id := 1, asset_id := 1, risk_score := 9,
    status := "new", timestamp := 1000 }

/-- A row at exactly the critical threshold, inside the window and at status
`new`, is not selected: the query uses `risk_score > threshold`, refuting
the claimed `greater than or equal`. -/
theorem critical_selection_counterexample :
    check_and_notify_critical_threats cfgC4 1000 [rowC4] = [] ∧
    cfgC4.enabled = true ∧ criticalThreshold cfgC4 ≤ rowC4.risk_score ∧
    rowC4.status = "new" ∧ (1000 : ℤ) - 3600 ≤ rowC4.timestamp := by
  decide

/-- Claim C5 (amended to the code's bounds): the daily high-tier digest
selects exactly the trailing-24-hour rows at status `new` with
`high_threshold < score ≤ critical_threshold` (exclusive lower bound,
inclusive upper bound), and, when email is enabled and the selection is
non-empty, sends one digest per resolved recipient. -/
theorem high_daily_selection_bounds :
    (∀ cfg now rows (r : VThreatRow),
      r ∈ (notify_high_risk_daily_summary cfg now rows).1 ↔
        (cfg.enabled = true ∧ r ∈ rows ∧ highThreshold cfg < r.risk_score ∧
         r.risk_score ≤ criticalThreshold cfg ∧ r.status = "new" ∧
         now - 86400 ≤ r.timestamp)) ∧
    (∀ cfg now rows, cfg.enabled = true → cfg.emailEnabled = true →
      (notify_high_risk_daily_summary cfg now rows).1 ≠ [] →
      (notify_high_risk_daily_summary cfg now rows).2 =
        resolveTier cfg.highDailyEnabled cfg.highDailyRecipients
          cfg.recipients cfg.toAddress) := by
  constructor
  · intro cfg now rows r
    unfold notify_high_risk_daily_summary
    by_cases he : cfg.enabled
    · have hmem : r ∈ rows.filter (fun r =>
          decide (highThreshold cfg < r.risk_score) &&
          decide (r.risk_score ≤ criticalThreshold cfg) && (r.status == "new") &&
          decide (now - 86400 ≤ r.timestamp)) ↔
          (r ∈ rows ∧ highThreshold cfg < r.risk_score ∧
           r.risk_score ≤ criticalThreshold cfg ∧ r.status = "new" ∧
           now - 86400 ≤ r.timestamp) := by
        simp [List.mem_filter, and_assoc]
      by_cases hse : (rows.filter (fun r =>
          decide (highThreshold cfg < r.risk_score) &&
          decide (r.risk_score ≤ criticalThreshold cfg) && (r.status == "new") &&
          decide (now - 86400 ≤ r.timestamp))).isEmpty
      · simp only [he, Bool.not_true, Bool.false_eq_true, if_false, hse, if_true]
        constructor
        · intro hmm
          exact absurd hmm (by simp)
        · intro hrhs
          have : r ∈ (List.nil : List VThreatRow) := by
            have h2 := hmem.mpr ⟨hrhs.2.1, hrhs.2.2.1, hrhs.2.2.2.1, hrhs.2.2.2.2.1,
              hrhs.2.2.2.2.2⟩
            rw [List.isEmpty_iff] at hse
            rw [hse] at h2
            exact h2
          simp at this
      · by_cases hee : cfg.emailEnabled <;>
          simp only [he, Bool.not_true, Bool.false_eq_true, if_false, hse, hee,
            if_true] <;>
          rw [hmem] <;>
          simp [he]
    · simp [he]
  · intro cfg now rows he hee hne
    unfold notify_high_risk_daily_summary at hne ⊢
    simp only [he, Bool.not_true, Bool.false_eq_true, if_false] at hne ⊢
    by_cases hse : (rows.filter (fun r =>
        decide (highThreshold cfg < r.risk_score) &&
        decide (r.risk_score ≤ criticalThreshold cfg) && (r.status == "new") &&
        decide (now - 86400 ≤ r.timestamp))).isEmpty
    · rw [if_pos hse] at hne
      exact absurd rfl hne
    · rw [if_neg hse] at hne ⊢
      rw [if_pos hee]

/-- Notification configuration with a resolvable daily-digest recipient,
used to exercise claim C5. -/
def cfgC5w : NotifConfig :=
  { enabled := true, emailEnabled := true, thresholdHigh := Option.none,
    thresholdCritical := Option.none, criticalTierEnabled := Option.none,
    criticalTierRecipients := [], highDailyEnabled := Option.none,
    highDailyRecipients := ["soc"], weeklyEnabled := Option.none,
    weeklyRecipients := [], recipients := [("soc", "soc@example.com")],
    toAddress := "", smtpServer := "smtp.example.com",
    fromAddress := "aetim@example.com" }

/-- A validated threat strictly between the default thresholds. -/
def rowC5w : VThreatRow :=
  { id := 2, intel_id := 2, asset_id := 2, risk_score := 8,
    status := "new", timestamp := 0 }

theorem high_daily_selection_bounds_witness :
    (notify_high_risk_daily_summary cfgC5w 0 [rowC5w]).2 =
      resolveTier cfgC5w.highDailyEnabled cfgC5w.highDailyRecipients
        cfgC5w.recipients cfgC5w.toAddress :=
  high_daily_selection_bounds.2 cfgC5w 0 [rowC5w] rfl rfl (by decide)

/-- Notification configuration with default thresholds and email disabled,
used for the claim C5 boundary counterexample. -/
def cfgC5c : NotifConfig :=
  { enabled := true, emailEnabled := false, thresholdHigh := Option.none,
    thresholdCritical := Option.none, criticalTierEnabled := Option.none,
    criticalTierRecipients := [], highDailyEnabled := Option.none,
    highDailyRecipients := [], weeklyEnabled := Option.none,
    weeklyRecipients := [], recipients := [], toAddress := "",
    smtpServer := "", fromAddress := "" }

/-- A row at exactly the default high threshold 7.0. -/
def rowC5a : VThreatRow :=
  { id := 3, intel_id := 3, asset_id := 3, risk_score := 7,
    status := "new", timestamp := 0 }

/-- A row at exactly the default critical threshold 9.0. -/
def rowC5b : VThreatRow :=
  { id := 4, intel_id := 4, asset_id := 4, risk_score := 9,
    status := "new", timestamp := 0 }

/-- The daily digest excludes a fresh `new` row at exactly the high
threshold, which the claim's inclusive lower bound would select, and
includes a row at exactly the critical threshold, which the claim's
exclusive upper bound would exclude: the query uses
`score > high AND score <= critical`. -/
theorem high_daily_selection_counterexample :
    (notify_high_risk_daily_summary cfgC5c 0 [rowC5a, rowC5b]).1 = [rowC5b] ∧
    rowC5a.risk_score = highThreshold cfgC5c ∧
    rowC5b.risk_score = criticalThreshold cfgC5c ∧
    rowC5a.status = "new" ∧ rowC5b.status = "new" ∧
    (0 : ℤ) - 86400 ≤ rowC5a.timestamp ∧ (0 : ℤ) - 86400 ≤ rowC5b.timestamp ∧
    cfgC5c.enabled = true := by
  decide

/-- Notification configuration whose weekly recipient groups include one
group with no configured address (`ciso`) and one that resolves (`it`). -/
def cfgC9 : NotifConfig :=
  { enabled := true, emailEnabled := true, thresholdHigh := Option.none,
    thresholdCritical := Option.none, criticalTierEnabled := Option.none,
    criticalTierRecipients := [], highDailyEnabled := Option.none,
    highDailyRecipients := [], weeklyEnabled := Option.none,
    weeklyRecipients := ["ciso", "it"],
    recipients := [("it", "it@example.com")], toAddress := "",
    smtpServer := "smtp.example.com", fromAddress := "aetim@example.com" }

/-- With one unconfigured group beside one configured group, the weekly
dispatch sends to the configured address and surfaces no warning at all
about the unconfigured group, refuting the claimed per-group warning: the
code skips such a group silently and only warns when no group resolves. -/
theorem unconfigured_group_warning_counterexample :
    notify_weekly_report cfgC9 Option.none = ([], ["it@example.com"]) ∧
    "ciso" ∈ cfgC9.weeklyRecipients ∧
    cfgC9.recipients.find? (fun kv => kv.1 == "ciso") = Option.none := by
  decide

/-- Claim C9 (amended): a recipient group with no configured address
contributes nothing to the resolved recipient list (it is skipped without
an exception) while configured groups still receive the artifact; a warning
is surfaced only when no group at all resolves to an address, in which case
nothing is sent. -/
theorem unconfigured_group_silently_skipped :
    (∀ (g : String) (groups : List String) (te : Option Bool)
        (rmap : List (String × String)) (fb : String),
      rmap.find? (fun kv => kv.1 == g) = Option.none →
      resolveTier te (g :: groups) rmap fb = resolveTier te groups rmap fb) ∧
    (∀ cfg, cfg.emailEnabled = true →
      resolveTier cfg.weeklyEnabled cfg.weeklyRecipients cfg.recipients cfg.toAddress ≠ [] →
      cfg.smtpServer ≠ "" → cfg.fromAddress ≠ "" →
      notify_weekly_report cfg Option.none =
        ([], resolveTier cfg.weeklyEnabled cfg.weeklyRecipients
          cfg.recipients cfg.toAddress)) ∧
    (∀ cfg, cfg.emailEnabled = true →
      resolveTier cfg.weeklyEnabled cfg.weeklyRecipients cfg.recipients cfg.toAddress = [] →
      notify_weekly_report cfg Option.none =
        (["錯誤：收件者 Email 為空，無法發送週報。"], [])) := by
  refine ⟨?_, ?_, ?_⟩
  · intro g groups te rmap fb hfind
    unfold resolveTier
    by_cases hte : te.getD true <;> simp [hte, List.filterMap_cons, hfind]
  · intro cfg he hne hsm hfa
    unfold notify_weekly_report
    simp only [he, Bool.not_true, Bool.false_eq_true, if_false]
    rw [if_neg (by simp only [List.isEmpty_iff]; exact hne)]
    rw [if_neg (by simpa using hsm), if_neg (by simpa using hfa)]
  · intro cfg he hres
    unfold notify_weekly_report
    simp only [he, Bool.not_true, Bool.false_eq_true, if_false]
    rw [if_pos (by simp only [List.isEmpty_iff]; exact hres)]

theorem unconfigured_group_silently_skipped_witness :
    notify_weekly_report cfgC9 Option.none =
      ([], resolveTier cfgC9.weeklyEnabled cfgC9.weeklyRecipients
        cfgC9.recipients cfgC9.toAddress) :=
  unconfigured_group_silently_skipped.2.1 cfgC9 rfl (by decide)
    (by decide) (by decide)
